import Mathlib

/-!
# OpenCT "extern" reader driver

A shallow embedding of `src/ifd/ifd-extern.c`, the reader driver that is meant to
forward every reader operation to an external process, and of `src/ifd/extern.c`,
the device layer under it, together with the properties their specification states
about them.

Every C function is a Lean function from the state it can reach (the standard
error stream, the file's static `ops` table, the reader it is handed and the
caller's output buffer) to the state after the call and the returned `int`.
-/

namespace OpenCT

set_option autoImplicit false

/-! ## Data model -/

/-- A byte of a buffer; values are kept below 256 by the callers. -/
abbrev Byte := Nat

/-- Modelled from the spec: the `status` of a Process (section 3),
`Starting`, `Running`, `Exited(code)` or `Crashed`. -/
inductive ProcessStatus where
  | Starting
  | Running
  | Exited (code : Int)
  | Crashed
  deriving DecidableEq, Repr

/-- Modelled from the spec: the external-process handle of section 3, with
its `pid`, `argv` and `status`. -/
structure Process where
  pid : Nat
  argv : List String
  status : ProcessStatus
  deriving DecidableEq, Repr

/-- Modelled from the spec: the duplex byte stream of section 3.  `written`
records every byte handed to the external process (what a recording mock
transport would hold) and `incoming` the bytes received and not yet consumed. -/
structure Channel where
  written : List Byte
  incoming : List Byte
  deriving DecidableEq, Repr

/-- Modelled from the spec: card presence inside an `Active` slot (section 4.5). -/
inductive Card where
  | Absent
  | Present
  deriving DecidableEq, Repr

/-- Modelled from the spec: the slot states of section 4.5,
`Closed`, `Inactive` and `Active{protocol, card}`. -/
inductive SlotState where
  | Closed
  | Inactive
  | Active (protocol : Option Nat) (card : Card)
  deriving DecidableEq, Repr

/-- Modelled from the spec: a Slot of section 3 (`ifd_slot_t` is declared in
`internal.h`, which is not among the sources). -/
structure ifd_slot_t where
  index : Nat
  state : SlotState
  protocol : Option Nat
  atr : List Byte
  deriving DecidableEq, Repr

/-- Modelled from the spec: the Reader aggregate of section 3, owning one
Process, one Channel and all Slots (`ifd_reader_t` is declared in `internal.h`,
which is not among the sources). -/
structure ifd_reader_t where
  process : Process
  channel : Channel
  slots : List ifd_slot_t
  deriving DecidableEq, Repr

/-- The slot is `Inactive`. -/
def SlotState.isInactive : SlotState → Bool
  | .Inactive => true
  | _ => false

/-- The slot is `Active` with `card = Absent`. -/
def SlotState.cardAbsent : SlotState → Bool
  | .Active _ .Absent => true
  | _ => false

/-- The slot is `Active` with `card = Present`. -/
def SlotState.cardPresent : SlotState → Bool
  | .Active _ .Present => true
  | _ => false

/-- The state of the slot at position `i` of the reader, if there is one. -/
def ifd_reader_t.slotState (reader : ifd_reader_t) (i : Nat) : Option SlotState :=
  (reader.slots.get? i).map (fun s => s.state)

/-! ## Function pointers and the static operation table -/

/-- The address of one of the static functions of `ifd-extern.c`; a function
pointer stored in the operation table is one of these. -/
inductive DriverFn where
  | extern_open
  | extern_close
  | extern_change_parity
  | extern_change_speed
  | extern_activate
  | extern_deactivate
  | extern_card_status
  | extern_card_reset
  | extern_card_request
  | extern_card_eject
  | extern_output
  | extern_perform_verify
  | extern_send
  | extern_recv
  | extern_set_protocol
  | extern_transparent
  | extern_sync_read
  | extern_sync_write
  | extern_escape
  | extern_before_command
  | extern_after_command
  | extern_get_eventfd
  | extern_event
  | extern_error
  deriving DecidableEq, Repr

/-- The fields of `struct ifd_driver_ops` that `ifd_extern_register` assigns (the
struct is declared in `internal.h`).  A function pointer is `none` when null.
The field `open` of the C struct is `open_` here, `open` being reserved. -/
structure ifd_driver_ops where
  default_protocol : Int
  open_ : Option DriverFn
  close : Option DriverFn
  change_parity : Option DriverFn
  change_speed : Option DriverFn
  activate : Option DriverFn
  deactivate : Option DriverFn
  card_status : Option DriverFn
  card_reset : Option DriverFn
  card_request : Option DriverFn
  card_eject : Option DriverFn
  output : Option DriverFn
  perform_verify : Option DriverFn
  send : Option DriverFn
  recv : Option DriverFn
  set_protocol : Option DriverFn
  transparent : Option DriverFn
  sync_read : Option DriverFn
  sync_write : Option DriverFn
  escape : Option DriverFn
  before_command : Option DriverFn
  after_command : Option DriverFn
  get_eventfd : Option DriverFn
  event : Option DriverFn
  error : Option DriverFn
  deriving DecidableEq, Repr

/-- A `static struct ifd_driver_ops` before any assignment: static storage is
zero-initialised, so every pointer is null and `default_protocol` is 0. -/
def ifd_driver_ops.zero : ifd_driver_ops :=
  { default_protocol := 0, open_ := none, close := none, change_parity := none,
    change_speed := none, activate := none, deactivate := none, card_status := none,
    card_reset := none, card_request := none, card_eject := none, output := none,
    perform_verify := none, send := none, recv := none, set_protocol := none,
    transparent := none, sync_read := none, sync_write := none, escape := none,
    before_command := none, after_command := none, get_eventfd := none,
    event := none, error := none }

/-- The address of an operation table handed to the framework. -/
inductive OpsRef where
  | ifd_extern_ops
  deriving DecidableEq, Repr

/-- The process-wide state the functions of `ifd-extern.c` can reach: the text
written to `stderr`, the file's `static struct ifd_driver_ops ops`, and the
driver registry of the framework. -/
structure World where
  stderr : String
  ops : ifd_driver_ops
  registered : List (String × OpsRef)
  deriving DecidableEq, Repr

/-- The effect of `fprintf(stderr, ...)` with the formatted text `s`. -/
def World.eprint (w : World) (s : String) : World :=
  { w with stderr := w.stderr ++ s }

/-- What a driver operation leaves behind: the world, the reader it was handed
(through a pointer, so it could have changed it), the contents of the caller's
output buffer, and the returned `int`. -/
structure Outcome (α : Type) where
  world : World
  reader : ifd_reader_t
  out : α
  ret : Int

/-! ## The driver operations of `ifd-extern.c`

Each body is the C body: one `fprintf` to `stderr` of the function's own name,
then `return -1`.  No function dereferences `reader` or an output pointer, so
the reader and the caller's buffer come back as they were passed. -/

/-- The C function `extern_open(reader, name)` (lines 51-56). -/
def extern_open (w : World) (reader : ifd_reader_t) (name : String) : Outcome Unit :=
  { world := w.eprint (" extern_open name = " ++ name ++ "\n")
    reader := reader, out := (), ret := -1 }

/-- The C function `extern_close(reader)` (lines 74-80). -/
def extern_close (w : World) (reader : ifd_reader_t) : Outcome Unit :=
  { world := w.eprint "extern_close()\n", reader := reader, out := (), ret := -1 }

/-- The C function `extern_change_parity(reader, parity)` (lines 108-114). -/
def extern_change_parity (w : World) (reader : ifd_reader_t) (_parity : Int) :
    Outcome Unit :=
  { world := w.eprint "extern_change_parity()\n", reader := reader, out := (), ret := -1 }

/-- The C function `extern_change_speed(reader, speed)` (lines 127-133). -/
def extern_change_speed (w : World) (reader : ifd_reader_t) (_speed : Nat) :
    Outcome Unit :=
  { world := w.eprint "extern_change_speed()\n", reader := reader, out := (), ret := -1 }

/-- The C function `extern_activate(reader)` (lines 149-155). -/
def extern_activate (w : World) (reader : ifd_reader_t) : Outcome Unit :=
  { world := w.eprint "extern_activate()\n", reader := reader, out := (), ret := -1 }

/-- The C function `extern_deactivate(reader)` (lines 168-174). -/
def extern_deactivate (w : World) (reader : ifd_reader_t) : Outcome Unit :=
  { world := w.eprint "extern_deactivate()\n", reader := reader, out := (), ret := -1 }

/-- The C function `extern_card_status(reader, slot, status)` (lines 201-207);
`status` is the `int` the pointer refers to. -/
def extern_card_status (w : World) (reader : ifd_reader_t) (_slot : Int) (status : Int) :
    Outcome Int :=
  { world := w.eprint "extern_card_status()\n", reader := reader, out := status, ret := -1 }

/-- The C function `extern_card_reset(reader, slot, atr, atr_len)` (lines 225-231);
`atr` is the contents of the caller's buffer. -/
def extern_card_reset (w : World) (reader : ifd_reader_t) (_slot : Int)
    (atr : List Byte) (_atr_len : Nat) : Outcome (List Byte) :=
  { world := w.eprint "extern_card_reset()\n", reader := reader, out := atr, ret := -1 }

/-- The C function `extern_card_request(reader, slot, timeout, message, atr,
atr_len)` (lines 248-256); `message` is `none` for a null pointer. -/
def extern_card_request (w : World) (reader : ifd_reader_t) (_slot : Int)
    (_timeout : Int) (_message : Option String) (atr : List Byte) (_atr_len : Nat) :
    Outcome (List Byte) :=
  { world := w.eprint "extern_card_request()\n", reader := reader, out := atr, ret := -1 }

/-- The C function `extern_card_eject(reader, slot, timeout, message)`
(lines 272-279). -/
def extern_card_eject (w : World) (reader : ifd_reader_t) (_slot : Int)
    (_timeout : Int) (_message : Option String) : Outcome Unit :=
  { world := w.eprint "extern_card_eject()\n", reader := reader, out := (), ret := -1 }

/-- The C function `extern_output(reader, message)` (lines 288-294). -/
def extern_output (w : World) (reader : ifd_reader_t) (_message : Option String) :
    Outcome Unit :=
  { world := w.eprint "extern_output()\n", reader := reader, out := (), ret := -1 }

/-- The C function `extern_perform_verify(reader, slot, timeout, prompt, data,
data_len, resp, resp_len)` (lines 312-321); `data` holds the PIN bytes and `resp`
is the contents of the caller's response buffer. -/
def extern_perform_verify (w : World) (reader : ifd_reader_t) (_slot : Int)
    (_timeout : Nat) (_prompt : Option String) (_data : List Byte) (_data_len : Nat)
    (resp : List Byte) (_resp_len : Nat) : Outcome (List Byte) :=
  { world := w.eprint "extern_perform_verify()\n", reader := reader, out := resp, ret := -1 }

/-- The C function `extern_send(reader, dad, buffer, len)` (lines 341-350). -/
def extern_send (w : World) (reader : ifd_reader_t) (_dad : Nat)
    (_buffer : List Byte) (_len : Nat) : Outcome Unit :=
  { world := w.eprint "extern_send()\n", reader := reader, out := (), ret := -1 }

/-- The C function `extern_recv(reader, dad, buffer, len, timeout)` (lines 366-376);
`buffer` is the contents of the caller's receive buffer. -/
def extern_recv (w : World) (reader : ifd_reader_t) (_dad : Nat)
    (buffer : List Byte) (_len : Nat) (_timeout : Int) : Outcome (List Byte) :=
  { world := w.eprint "extern_recv()\n", reader := reader, out := buffer, ret := -1 }

/-- The C function `extern_set_protocol(reader, slot, protocol)` (lines 400-406). -/
def extern_set_protocol (w : World) (reader : ifd_reader_t) (_slot : Int)
    (_protocol : Int) : Outcome Unit :=
  { world := w.eprint "extern_set_protocol()\n", reader := reader, out := (), ret := -1 }

/-- The C function `extern_transparent(reader, slot, sbuf, slen, rbuf, rlen)`
(lines 424-432); `rbuf` is the contents of the caller's receive buffer. -/
def extern_transparent (w : World) (reader : ifd_reader_t) (_slot : Int)
    (_sbuf : List Byte) (_slen : Nat) (rbuf : List Byte) (_rlen : Nat) :
    Outcome (List Byte) :=
  { world := w.eprint "extern_transparent()\n", reader := reader, out := rbuf, ret := -1 }

/-- The C function `extern_sync_read(reader, slot, proto, addr, rbuf, rlen)`
(lines 446-454). -/
def extern_sync_read (w : World) (reader : ifd_reader_t) (_slot : Int) (_proto : Int)
    (_addr : Nat) (rbuf : List Byte) (_rlen : Nat) : Outcome (List Byte) :=
  { world := w.eprint "extern_sync_read()\n", reader := reader, out := rbuf, ret := -1 }

/-- The C function `extern_sync_write(reader, slot, proto, addr, sbuf, slen)`
(lines 468-476). -/
def extern_sync_write (w : World) (reader : ifd_reader_t) (_slot : Int) (_proto : Int)
    (_addr : Nat) (_sbuf : List Byte) (_slen : Nat) : Outcome Unit :=
  { world := w.eprint "extern_sync_write()\n", reader := reader, out := (), ret := -1 }

/-- The C function `extern_escape(reader, slot, sbuf, slen, rbuf, rlen)`
(lines 481-489). -/
def extern_escape (w : World) (reader : ifd_reader_t) (_slot : Int)
    (_sbuf : List Byte) (_slen : Nat) (rbuf : List Byte) (_rlen : Nat) :
    Outcome (List Byte) :=
  { world := w.eprint "extern_escape()\n", reader := reader, out := rbuf, ret := -1 }

/-- The C function `extern_before_command(reader)` (lines 500-506). -/
def extern_before_command (w : World) (reader : ifd_reader_t) : Outcome Unit :=
  { world := w.eprint "extern_before_command()\n", reader := reader, out := (), ret := -1 }

/-- The C function `extern_after_command(reader)` (lines 517-523). -/
def extern_after_command (w : World) (reader : ifd_reader_t) : Outcome Unit :=
  { world := w.eprint "extern_after_command()\n", reader := reader, out := (), ret := -1 }

/-- The C function `extern_get_eventfd(reader, events)` (lines 535-541); `events`
is the `short` the pointer refers to. -/
def extern_get_eventfd (w : World) (reader : ifd_reader_t) (events : Int) :
    Outcome Int :=
  { world := w.eprint "extern_get_eventfd()\n", reader := reader, out := events, ret := -1 }

/-- The C function `extern_event(reader, status, status_size)` (lines 553-559);
`status` is the contents of the caller's status array. -/
def extern_event (w : World) (reader : ifd_reader_t) (status : List Int)
    (_status_size : Nat) : Outcome (List Int) :=
  { world := w.eprint "extern_event()\n", reader := reader, out := status, ret := -1 }

/-- The C function `extern_error(reader)` (lines 572-578). -/
def extern_error (w : World) (reader : ifd_reader_t) : Outcome Unit :=
  { world := w.eprint "extern_error()\n", reader := reader, out := (), ret := -1 }

/-! ## Registration -/

/-- Modelled from the spec: `ifd_driver_register(name, ops)` is declared in
`internal.h` and defined outside these sources; section 9 only says that the
single global `ops` is registered.  The call is kept as the pair of its arguments,
the driver name and the address of the table, at the head of the registry. -/
def ifd_driver_register (name : String) (ops : OpsRef) (w : World) : World :=
  { w with registered := (name, ops) :: w.registered }

/-- The C function `ifd_extern_register()` (lines 582-612): the 25 assignments to
the static `ops`, then `ifd_driver_register("extern", &ops)`. -/
def ifd_extern_register (w : World) : World :=
  let w1 := w.eprint "ifd_extern_register()\n"
  let ops : ifd_driver_ops :=
    { w1.ops with
      default_protocol := 0
      open_ := some .extern_open
      close := some .extern_close
      change_parity := some .extern_change_parity
      change_speed := some .extern_change_speed
      activate := some .extern_activate
      deactivate := some .extern_deactivate
      card_status := some .extern_card_status
      card_reset := some .extern_card_reset
      card_request := some .extern_card_request
      card_eject := some .extern_card_eject
      output := some .extern_output
      perform_verify := some .extern_perform_verify
      send := some .extern_send
      recv := some .extern_recv
      set_protocol := some .extern_set_protocol
      transparent := some .extern_transparent
      sync_read := some .extern_sync_read
      sync_write := some .extern_sync_write
      escape := some .extern_escape
      before_command := some .extern_before_command
      after_command := some .extern_after_command
      get_eventfd := some .extern_get_eventfd
      event := some .extern_event
      error := some .extern_error }
  ifd_driver_register "extern" OpsRef.ifd_extern_ops { w1 with ops := ops }

/-- The table a registered address refers to: `&ops` is the static `ops` of
`ifd-extern.c`. -/
def World.deref (w : World) : OpsRef → ifd_driver_ops
  | .ifd_extern_ops => w.ops

/-- The operation table registered under the driver name `name`, if any. -/
def World.driver_ops (w : World) (name : String) : Option ifd_driver_ops :=
  (w.registered.lookup name).map w.deref

/-- A world in which nothing has run yet: empty `stderr`, zeroed static `ops`,
no driver registered. -/
def World.initial : World :=
  { stderr := "", ops := ifd_driver_ops.zero, registered := [] }

/-! ## Framing codec (section 4.2)

`ifd-extern.c` holds no wire protocol: `extern_priv_t` is an empty struct and no
operation writes to a channel.  The codec below is the one the specification
describes, so that its round-trip property can be stated. -/

/-- Modelled from the spec: the frame of section 4.2,
`{length: u32, correlation_id: u32, opcode: u16, flags: u16, payload: bytes[length]}`;
the sources define no frame type. -/
structure Frame where
  length : Nat
  correlation_id : Nat
  opcode : Nat
  flags : Nat
  payload : List Byte
  deriving DecidableEq, Repr

/-- The byte order of the multi-byte header fields, which section 4.2 leaves open. -/
inductive ByteOrder where
  | big
  | little
  deriving DecidableEq, Repr

/-- The two bytes of a `u16` field. -/
def put_u16 (o : ByteOrder) (v : Nat) : List Byte :=
  match o with
  | .big => [v / 256 % 256, v % 256]
  | .little => [v % 256, v / 256 % 256]

/-- The four bytes of a `u32` field. -/
def put_u32 (o : ByteOrder) (v : Nat) : List Byte :=
  match o with
  | .big => [v / 16777216 % 256, v / 65536 % 256, v / 256 % 256, v % 256]
  | .little => [v % 256, v / 256 % 256, v / 65536 % 256, v / 16777216 % 256]

/-- The `u16` value of two bytes in wire order. -/
def get_u16 (o : ByteOrder) (b0 b1 : Byte) : Nat :=
  match o with
  | .big => b0 * 256 + b1
  | .little => b1 * 256 + b0

/-- The `u32` value of four bytes in wire order. -/
def get_u32 (o : ByteOrder) (b0 b1 b2 b3 : Byte) : Nat :=
  match o with
  | .big => b0 * 16777216 + b1 * 65536 + b2 * 256 + b3
  | .little => b3 * 16777216 + b2 * 65536 + b1 * 256 + b0

/-- Modelled from the spec: a valid frame of section 4.2.  `length` is the payload
size and does not exceed the configured maximum, each header field fits its width
and the payload is made of bytes. -/
def Frame.valid (max : Nat) (f : Frame) : Prop :=
  f.length = f.payload.length ∧ f.length ≤ max ∧ f.length < 4294967296 ∧
  f.correlation_id < 4294967296 ∧ f.opcode < 65536 ∧ f.flags < 65536 ∧
  ∀ b ∈ f.payload, b < 256

instance (max : Nat) (f : Frame) : Decidable (f.valid max) := by
  unfold Frame.valid
  infer_instance

/-- Modelled from the spec: the encoder of section 4.2, the four header fields in
the order the frame lists them, then the payload (the sources hold no encoder). -/
def encode (o : ByteOrder) (f : Frame) : List Byte :=
  put_u32 o f.length ++ put_u32 o f.correlation_id ++ put_u16 o f.opcode ++
    put_u16 o f.flags ++ f.payload

/-- What the streaming decoder of section 4.2 answers on the bytes buffered so far. -/
inductive DecodeResult where
  | Incomplete
  | FrameTooLarge
  | Complete (frame : Frame) (rest : List Byte)
  deriving DecidableEq, Repr

/-- Modelled from the spec: the streaming decoder of section 4.2 (the sources hold
no decoder).  A partial frame stays buffered (`Incomplete`) until the header and
`length` payload bytes are available; a declared length above the configured
maximum `max` fails with `FrameTooLarge`. -/
def decode (o : ByteOrder) (max : Nat) : List Byte → DecodeResult
  | l0 :: l1 :: l2 :: l3 :: c0 :: c1 :: c2 :: c3 :: p0 :: p1 :: g0 :: g1 :: body =>
    let length := get_u32 o l0 l1 l2 l3
    if max < length then .FrameTooLarge
    else if body.length < length then .Incomplete
    else .Complete
      { length := length, correlation_id := get_u32 o c0 c1 c2 c3,
        opcode := get_u16 o p0 p1, flags := get_u16 o g0 g1,
        payload := body.take length }
      (body.drop length)
  | _ => .Incomplete

/-! ## The device layer of `extern.c`

`extern.c` is a translation unit of its own: it has its own `static ops`, a
`struct ifd_device_ops`, and its own static functions, four of which bear the
names of functions of `ifd-extern.c`.  They live in the namespace `Device`. -/

namespace Device

/-- The address of one of the static functions of `extern.c`; a function pointer
stored in the device operation table is one of these. -/
inductive DeviceFn where
  | extern_reset
  | extern_set_params
  | extern_get_params
  | extern_flush
  | extern_send_break
  | extern_transceive
  | extern_send
  | extern_recv
  | extern_control
  | extern_close
  | extern_get_eventfd
  | extern_poll_presence
  deriving DecidableEq, Repr

/-- The fields of `struct ifd_device_ops` that `ifd_open_extern` assigns (the struct
is declared in `internal.h`).  A function pointer is `none` when null. -/
structure ifd_device_ops where
  reset : Option DeviceFn
  set_params : Option DeviceFn
  get_params : Option DeviceFn
  flush : Option DeviceFn
  send_break : Option DeviceFn
  transceive : Option DeviceFn
  send : Option DeviceFn
  recv : Option DeviceFn
  control : Option DeviceFn
  close : Option DeviceFn
  get_eventfd : Option DeviceFn
  poll_presence : Option DeviceFn
  deriving DecidableEq, Repr

/-- A `static struct ifd_device_ops` before any assignment: static storage is
zero-initialised, so every pointer is null. -/
def ifd_device_ops.zero : ifd_device_ops :=
  { reset := none, set_params := none, get_params := none, flush := none,
    send_break := none, transceive := none, send := none, recv := none,
    control := none, close := none, get_eventfd := none, poll_presence := none }

/-- The address of a device operation table: `&ops`, the static `ops` of
`extern.c`. -/
inductive DeviceOpsRef where
  | extern_ops
  deriving DecidableEq, Repr

/-- The fields of `ifd_device_t` that `extern.c` deals with (the struct is declared
in `internal.h`): the four that `ifd_open_extern` assigns, `hotplug`, `timeout`,
`type` and `user_data` (a pointer, `none` when null), and the name and the table
address that `ifd_device_new` is handed for the new device. -/
structure ifd_device_t where
  name : String
  ops : Option DeviceOpsRef
  hotplug : Int
  timeout : Int
  type : Int
  user_data : Option Nat
  deriving DecidableEq, Repr

/-- The value of an `ifd_device_params_t` object, kept as the bytes that make it up
(the type is declared in `internal.h`). -/
abbrev ifd_device_params_t := List Byte

/-- The POSIX `struct pollfd`. -/
structure pollfd where
  fd : Int
  events : Int
  revents : Int
  deriving DecidableEq, Repr

/-- The process-wide state the functions of `extern.c` can reach: the text written
to `stderr` and the file's `static struct ifd_device_ops ops`. -/
structure DeviceWorld where
  stderr : String
  ops : ifd_device_ops
  deriving DecidableEq, Repr

/-- The effect of `fprintf(stderr, ...)` with the formatted text `s`. -/
def DeviceWorld.eprint (w : DeviceWorld) (s : String) : DeviceWorld :=
  { w with stderr := w.stderr ++ s }

/-- The table an address refers to: `&ops` is the static `ops` of `extern.c`. -/
def DeviceWorld.deref (w : DeviceWorld) : DeviceOpsRef → ifd_device_ops
  | .extern_ops => w.ops

/-- A world in which nothing has run yet: empty `stderr` and zeroed static `ops`. -/
def DeviceWorld.initial : DeviceWorld :=
  { stderr := "", ops := ifd_device_ops.zero }

/-- What the rest of the framework provides to `extern.c`, all of it declared in
`internal.h` and defined outside these sources: the constant
`IFD_DEVICE_TYPE_OTHER`, the value of `sizeof(ifd_device_t)`, and the allocator
`ifd_device_new(name, ops, size)`.  The allocator may read the state, in particular
the table behind the address it is handed; it answers the new device, or `none`
for a null pointer. -/
structure Framework where
  IFD_DEVICE_TYPE_OTHER : Int
  sizeof_ifd_device_t : Nat
  ifd_device_new : DeviceWorld → String → DeviceOpsRef → Nat → Option ifd_device_t

/-- What a device operation returning `int` leaves behind: the world, the device it
was handed (through a pointer), the contents of the caller's output object, and the
returned `int`. -/
structure DeviceOutcome (α : Type) where
  world : DeviceWorld
  device : ifd_device_t
  out : α
  ret : Int

/-- What a device operation returning `void` leaves behind: the world and the device
it was handed. -/
structure DeviceEffect where
  world : DeviceWorld
  device : ifd_device_t

/-- The C function `extern_reset(device)` of `extern.c` (lines 24-28). -/
def extern_reset (w : DeviceWorld) (device : ifd_device_t) : DeviceOutcome Unit :=
  { world := w.eprint "extern_reset()\n", device := device, out := (), ret := -1 }

/-- The C function `extern_set_params(device, parameters)` (lines 31-35). -/
def extern_set_params (w : DeviceWorld) (device : ifd_device_t)
    (_parameters : ifd_device_params_t) : DeviceOutcome Unit :=
  { world := w.eprint "extern_set_params()\n", device := device, out := (), ret := -1 }

/-- The C function `extern_get_params(device, parameters)` (lines 37-41);
`parameters` is the object the pointer refers to. -/
def extern_get_params (w : DeviceWorld) (device : ifd_device_t)
    (parameters : ifd_device_params_t) : DeviceOutcome ifd_device_params_t :=
  { world := w.eprint "extern_get_params()\n", device := device, out := parameters,
    ret := -1 }

/-- The C function `extern_flush(device)` (lines 45-48). -/
def extern_flush (w : DeviceWorld) (device : ifd_device_t) : DeviceEffect :=
  { world := w.eprint "extern_flush()\n", device := device }

/-- The C function `extern_send_break(device, flag)` (lines 50-53). -/
def extern_send_break (w : DeviceWorld) (device : ifd_device_t) (_flag : Nat) :
    DeviceEffect :=
  { world := w.eprint "extern_send_break()\n", device := device }

/-- The C function `extern_transceive(device, send, send_size, receive,
receive_size, flags)` (lines 61-65); `receive` is the contents of the caller's
receive buffer. -/
def extern_transceive (w : DeviceWorld) (device : ifd_device_t) (_send : List Byte)
    (_send_size : Nat) (receive : List Byte) (_receive_size : Nat) (_flags : Int) :
    DeviceOutcome (List Byte) :=
  { world := w.eprint "extern_transceive()\n", device := device, out := receive,
    ret := -1 }

/-- The C function `extern_send(device, send, send_size)` of `extern.c`
(lines 67-71). -/
def extern_send (w : DeviceWorld) (device : ifd_device_t) (_send : List Byte)
    (_send_size : Nat) : DeviceOutcome Unit :=
  { world := w.eprint "extern_send()\n", device := device, out := (), ret := -1 }

/-- The C function `extern_recv(device, receive, receive_size, flags)` of
`extern.c` (lines 73-77); `receive` is the contents of the caller's receive
buffer. -/
def extern_recv (w : DeviceWorld) (device : ifd_device_t) (receive : List Byte)
    (_receive_size : Nat) (_flags : Int) : DeviceOutcome (List Byte) :=
  { world := w.eprint "extern_recv()\n", device := device, out := receive, ret := -1 }

/-- The C function `extern_control(device, buffer, buffer_size)` (lines 79-83);
`buffer` is the contents of the caller's buffer. -/
def extern_control (w : DeviceWorld) (device : ifd_device_t) (buffer : List Byte)
    (_buffer_size : Nat) : DeviceOutcome (List Byte) :=
  { world := w.eprint "extern_control()\n", device := device, out := buffer, ret := -1 }

/-- The C function `extern_close(device)` of `extern.c` (lines 85-88). -/
def extern_close (w : DeviceWorld) (device : ifd_device_t) : DeviceEffect :=
  { world := w.eprint "extern_close()\n", device := device }

/-- The C function `extern_get_eventfd(device, events)` of `extern.c`
(lines 90-94); `events` is the `short` the pointer refers to. -/
def extern_get_eventfd (w : DeviceWorld) (device : ifd_device_t) (events : Int) :
    DeviceOutcome Int :=
  { world := w.eprint "extern_get_eventfd()\n", device := device, out := events,
    ret := -1 }

/-- The C function `extern_poll_presence(device, polls)` (lines 109-113); `polls`
is the `struct pollfd` the pointer refers to. -/
def extern_poll_presence (w : DeviceWorld) (device : ifd_device_t) (polls : pollfd) :
    DeviceOutcome pollfd :=
  { world := w.eprint "extern_poll_presence()\n", device := device, out := polls,
    ret := -1 }

/-- The twelve assignments to the static `ops` that open `ifd_open_extern`
(lines 122-133). -/
def assign_ops (w : DeviceWorld) : DeviceWorld :=
  { w with
    ops :=
      { w.ops with
        reset := some .extern_reset
        set_params := some .extern_set_params
        get_params := some .extern_get_params
        flush := some .extern_flush
        send_break := some .extern_send_break
        transceive := some .extern_transceive
        send := some .extern_send
        recv := some .extern_recv
        control := some .extern_control
        close := some .extern_close
        get_eventfd := some .extern_get_eventfd
        poll_presence := some .extern_poll_presence } }

/-- What `ifd_open_extern` leaves behind: the world and the device behind the
pointer it returns. -/
structure OpenResult where
  world : DeviceWorld
  dev : Option ifd_device_t

/-- The C function `ifd_open_extern(ident)` (lines 118-142): the twelve assignments
to the static `ops`, then `dev = ifd_device_new(ident, &ops, sizeof(*dev))` and the
four assignments through `dev`.  `dev` is dereferenced unchecked, so when
`ifd_device_new` answers a null pointer the behaviour is undefined and no device is
returned (`none`). -/
def ifd_open_extern (fw : Framework) (w : DeviceWorld) (ident : String) : OpenResult :=
  let w1 := assign_ops w
  match fw.ifd_device_new w1 ident DeviceOpsRef.extern_ops fw.sizeof_ifd_device_t with
  | none => { world := w1, dev := none }
  | some dev =>
    { world := w1
      dev := some { dev with
        hotplug := 1, timeout := 2000, type := fw.IFD_DEVICE_TYPE_OTHER,
        user_data := none } }

/-- A framework whose `ifd_device_new` always succeeds: it answers a zeroed device
that carries the name and the table address it was handed. -/
def sample_framework : Framework :=
  { IFD_DEVICE_TYPE_OTHER := 5
    sizeof_ifd_device_t := 64
    ifd_device_new := fun _ name ops _ =>
      some { name := name, ops := some ops, hotplug := 0, timeout := 0, type := 0,
             user_data := none } }

/-- The device that the allocator of `sample_framework` answers for the identifier
`"sim0"`. -/
def fresh_device : ifd_device_t :=
  { name := "sim0", ops := some DeviceOpsRef.extern_ops, hotplug := 0, timeout := 0,
    type := 0, user_data := none }

/-- A `struct pollfd` before `poll()` has run: descriptor 3, no event asked or seen. -/
def sample_pollfd : pollfd := { fd := 3, events := 0, revents := 0 }

/-- The device that `ifd_open_extern` returns for the identifier `"sim0"` under
`sample_framework`. -/
def sample_device : ifd_device_t :=
  { name := "sim0", ops := some DeviceOpsRef.extern_ops, hotplug := 1, timeout := 2000,
    type := 5, user_data := none }

end Device

/-! ## Sample values -/

/-- A reader with a single slot in state `st`, whose external process has status
`ps` and whose channel has carried nothing yet. -/
def sample_reader (ps : ProcessStatus) (st : SlotState) : ifd_reader_t :=
  { process := { pid := 4242, argv := ["card-simulator"], status := ps }
    channel := { written := [], incoming := [] }
    slots := [{ index := 0, state := st, protocol := none, atr := [] }] }

/-- A reader that has not been opened: it has no slot yet; `ps` is the status of its
external process. -/
def unopened_reader (ps : ProcessStatus) : ifd_reader_t :=
  { process := { pid := 4242, argv := ["card-simulator"], status := ps }
    channel := { written := [], incoming := [] }
    slots := [] }

/-- A reader whose process is `Running` and whose slot 0 is `Inactive`. -/
def inactive_reader : ifd_reader_t := sample_reader .Running .Inactive

/-- A reader whose process is `Running` and whose slot 0 is `Active` with a card
`Present`. -/
def running_reader : ifd_reader_t := sample_reader .Running (.Active none .Present)

/-- The same reader after its external process has `Crashed`. -/
def crashed_reader : ifd_reader_t := sample_reader .Crashed (.Active none .Present)

/-- The PIN bytes `1234` in ASCII. -/
def sample_pin : List Byte := [0x31, 0x32, 0x33, 0x34]

/-- A caller's ATR buffer of 64 bytes, all zero. -/
def empty_atr_buffer : List Byte := List.replicate 64 0

/-- The APDU `00 A4 04 00` of the scenario of section 8. -/
def select_apdu : List Byte := [0x00, 0xA4, 0x04, 0x00]

/-- A frame carrying `select_apdu` as a `send` request. -/
def sample_frame : Frame :=
  { length := 4, correlation_id := 7, opcode := 12, flags := 0, payload := select_apdu }


/-! ## Lemmas on the header fields -/

theorem get_put_u16 (o : ByteOrder) (v : Nat) (h : v < 65536) :
    ∃ b0 b1, put_u16 o v = [b0, b1] ∧ get_u16 o b0 b1 = v := by
  cases o
  · exact ⟨_, _, rfl, by simp only [get_u16]; omega⟩
  · exact ⟨_, _, rfl, by simp only [get_u16]; omega⟩

theorem get_put_u32 (o : ByteOrder) (v : Nat) (h : v < 4294967296) :
    ∃ b0 b1 b2 b3, put_u32 o v = [b0, b1, b2, b3] ∧ get_u32 o b0 b1 b2 b3 = v := by
  cases o
  · exact ⟨_, _, _, _, rfl, by simp only [get_u32]; omega⟩
  · exact ⟨_, _, _, _, rfl, by simp only [get_u32]; omega⟩

/-- Decoding the encoding of a valid frame followed by further bytes yields the
frame and leaves those bytes buffered. -/
theorem decode_encode_append (o : ByteOrder) (max : Nat) (f : Frame) (rest : List Byte)
    (hv : f.valid max) : decode o max (encode o f ++ rest) = .Complete f rest := by
  obtain ⟨hlen, hmax, hl, hc, hp, hg, _⟩ := hv
  obtain ⟨l0, l1, l2, l3, el, gl⟩ := get_put_u32 o f.length hl
  obtain ⟨c0, c1, c2, c3, ec, gc⟩ := get_put_u32 o f.correlation_id hc
  obtain ⟨p0, p1, ep, gp⟩ := get_put_u16 o f.opcode hp
  obtain ⟨g0, g1, eg, gg⟩ := get_put_u16 o f.flags hg
  have hnot : ¬ max < f.length := by omega
  have hbody : ¬ (f.payload ++ rest).length < f.length := by
    rw [List.length_append]; omega
  obtain ⟨len, cid, opc, flg, pl⟩ := f
  simp only at hlen gl gc gp gg el ec ep eg hnot hbody
  subst hlen
  simp only [encode, el, ec, ep, eg, List.cons_append, List.nil_append, decode, gl, gc, gp,
    gg, hnot, hbody, if_false, List.take_left, List.drop_left]

/-! ## Properties of the driver operations -/

/-- C1: on a reader whose slot is `Inactive` or whose card is `Absent`, each data
operation (`send`, `recv`, `transparent`, `sync_read`, `sync_write`,
`perform_verify`) fails with a negative return value for every argument, and no
byte is written to the channel to the external process: the bytes written to the
channel after the call are the bytes written before it. -/
theorem data_operation_without_card_fails (w : World) (reader : ifd_reader_t) (slot : Nat)
    (st : SlotState) (hslot : reader.slotState slot = some st)
    (hst : st.isInactive = true ∨ st.cardAbsent = true)
    (vtimeout : Nat) (prompt : Option String) (data : List Byte) (data_len : Nat)
    (resp : List Byte) (resp_len : Nat) (dad : Nat) (buffer : List Byte) (len : Nat)
    (rtimeout : Int) (sbuf : List Byte) (slen : Nat) (rbuf : List Byte) (rlen : Nat)
    (proto : Int) (addr : Nat) :
    let snd :=
      extern_send w reader dad buffer len
    let rcv :=
      extern_recv w reader dad buffer len rtimeout
    let tra :=
      extern_transparent w reader (slot : Int) sbuf slen rbuf rlen
    let srd :=
      extern_sync_read w reader (slot : Int) proto addr rbuf rlen
    let swr :=
      extern_sync_write w reader (slot : Int) proto addr sbuf slen
    let ver :=
      extern_perform_verify w reader (slot : Int) vtimeout prompt data data_len resp resp_len
    (snd.ret < 0 ∧ snd.reader.channel.written = reader.channel.written) ∧
    (rcv.ret < 0 ∧ rcv.reader.channel.written = reader.channel.written) ∧
    (tra.ret < 0 ∧ tra.reader.channel.written = reader.channel.written) ∧
    (srd.ret < 0 ∧ srd.reader.channel.written = reader.channel.written) ∧
    (swr.ret < 0 ∧ swr.reader.channel.written = reader.channel.written) ∧
    (ver.ret < 0 ∧ ver.reader.channel.written = reader.channel.written) := by
  have _ := hslot
  have _ := hst
  intro snd rcv tra srd swr ver
  and_intros <;> first | rfl | exact (by decide : (-1 : Int) < 0)

/-- Witness of C1: the six data operations on a reader whose slot 0 is `Inactive`. -/
theorem data_operation_without_card_fails_witness :
    inactive_reader.slotState 0 = some SlotState.Inactive ∧
    (SlotState.Inactive.isInactive = true ∨ SlotState.Inactive.cardAbsent = true) ∧
    ((extern_send World.initial inactive_reader 2 select_apdu 4).ret
        < 0 ∧
      (extern_send World.initial inactive_reader 2 select_apdu 4).reader.channel.written
        = inactive_reader.channel.written) ∧
    ((extern_recv World.initial inactive_reader 2 select_apdu 4 5).ret
        < 0 ∧
      (extern_recv World.initial inactive_reader 2 select_apdu 4 5).reader.channel.written
        = inactive_reader.channel.written) ∧
    ((extern_transparent World.initial inactive_reader 0 select_apdu 4 [0, 0] 2).ret
        < 0 ∧
      (extern_transparent World.initial inactive_reader 0 select_apdu 4 [0, 0] 2).reader.channel.written
        = inactive_reader.channel.written) ∧
    ((extern_sync_read World.initial inactive_reader 0 16 0 [0, 0] 2).ret
        < 0 ∧
      (extern_sync_read World.initial inactive_reader 0 16 0 [0, 0] 2).reader.channel.written
        = inactive_reader.channel.written) ∧
    ((extern_sync_write World.initial inactive_reader 0 16 0 select_apdu 4).ret
        < 0 ∧
      (extern_sync_write World.initial inactive_reader 0 16 0 select_apdu 4).reader.channel.written
        = inactive_reader.channel.written) ∧
    ((extern_perform_verify World.initial inactive_reader 0 30 none sample_pin 4 [0, 0] 2).ret
        < 0 ∧
      (extern_perform_verify World.initial inactive_reader 0 30 none sample_pin 4 [0, 0] 2).reader.channel.written
        = inactive_reader.channel.written) :=
  ⟨by decide, by decide,
    data_operation_without_card_fails World.initial inactive_reader 0 .Inactive
      (by decide) (by decide) 30 none sample_pin 4 [0, 0] 2 2 select_apdu 4 5 select_apdu 4
      [0, 0] 2 16 0⟩

/-- C2, refuted: on a reader whose external process is `Running`, the scenario of
section 8 does not take place.  It is not the case that `open` and `activate`
succeed, `card_request(slot 0, timeout 5)` returns 10 with slot 0 `Active` and its card
`Present`, `send` of the APDU `00 A4 04 00` returns 4 and the following `recv`
returns 2 with the bytes `90 00`. -/
theorem scenario_select_refuted :
    ¬ (let s1 := extern_open World.initial (unopened_reader .Running) "card-simulator"
       let s2 := extern_activate s1.world s1.reader
       let s3 := extern_card_request s2.world s2.reader 0 5 none empty_atr_buffer 64
       let s4 := extern_send s3.world s3.reader 2 select_apdu 4
       let s5 := extern_recv s4.world s4.reader 2 [0, 0] 2 5
       0 ≤ s1.ret ∧ 0 ≤ s2.ret ∧ s3.ret = 10 ∧
       (s3.reader.slotState 0).map SlotState.cardPresent = some true ∧
       s4.ret = 4 ∧ s5.ret = 2 ∧ s5.out = [0x90, 0x00]) := by
  decide

/-- C2, amended: in the scenario of section 8 every step fails.  On every reader
`open` returns -1, and so do the following `activate`, `card_request`, `send` and
`recv`; `card_request` leaves the ATR buffer and the reader, hence the state of
every slot, as they were, and `recv` leaves its buffer as it was. -/
theorem scenario_select_every_step_fails (w : World) (reader : ifd_reader_t) (name : String)
    (slot : Int) (timeout : Int) (message : Option String) (atr : List Byte) (atr_len : Nat)
    (dad : Nat) (apdu : List Byte) (len : Nat) (rbuf : List Byte) (rlen : Nat)
    (rtimeout : Int) :
    let s1 := extern_open w reader name
    let s2 := extern_activate s1.world s1.reader
    let s3 := extern_card_request s2.world s2.reader slot timeout message atr atr_len
    let s4 := extern_send s3.world s3.reader dad apdu len
    let s5 := extern_recv s4.world s4.reader dad rbuf rlen rtimeout
    s1.ret = -1 ∧ s2.ret = -1 ∧ s3.ret = -1 ∧ s3.out = atr ∧ s3.reader = reader ∧
    (∀ i, s3.reader.slotState i = reader.slotState i) ∧
    s4.ret = -1 ∧ s5.ret = -1 ∧ s5.out = rbuf ∧ s5.reader = reader := by
  intro s1 s2 s3 s4 s5
  exact ⟨rfl, rfl, rfl, rfl, rfl, fun _ => rfl, rfl, rfl, rfl, rfl⟩

/-- C3: `open` fails with a negative error code on every reader and every name,
whatever becomes of the external process (`extern_open` starts none), and it
creates no slot: the reader after the call, and so its list of slots, is the reader
before the call. -/
theorem open_fails_and_creates_no_slot (w : World) (reader : ifd_reader_t) (name : String) :
    (extern_open w reader name).ret < 0 ∧
    (extern_open w reader name).reader = reader ∧
    (extern_open w reader name).reader.slots = reader.slots :=
  ⟨(by decide : (-1 : Int) < 0), rfl, rfl⟩

/-- C4: for every reader, slot, timeout, message and ATR buffer, `card_request`
returns a negative code and leaves the slot state unchanged: the reader, and the
state of each of its slots, after the call are what they were before it.  This holds
whether or not a response arrives, as `extern_card_request` waits for none. -/
theorem card_request_fails_without_mutation (w : World) (reader : ifd_reader_t)
    (slot : Int) (timeout : Int) (message : Option String) (atr : List Byte)
    (atr_len : Nat) :
    (extern_card_request w reader slot timeout message atr atr_len).ret < 0 ∧
    (extern_card_request w reader slot timeout message atr atr_len).reader = reader ∧
    (extern_card_request w reader slot timeout message atr atr_len).reader.slots
      = reader.slots ∧
    ∀ i, (extern_card_request w reader slot timeout message atr atr_len).reader.slotState i
      = reader.slotState i :=
  ⟨(by decide : (-1 : Int) < 0), rfl, rfl, fun _ => rfl⟩

/-- C5, refuted: the codes do not tell the causes apart.  `card_request` on a reader
whose process is `Running` and stays silent (the `Timeout` case) returns the code it
returns on a reader whose process has `Crashed` (the `ProcessTerminated` case), and
so does `perform_verify` with a PIN on a present card (the semantic-error case). -/
theorem error_codes_do_not_distinguish_causes :
    ¬ ((extern_card_request World.initial running_reader 0 5 none
          empty_atr_buffer 64).ret
        ≠ (extern_card_request World.initial crashed_reader 0 5 none
          empty_atr_buffer 64).ret) ∧
    ¬ ((extern_perform_verify World.initial running_reader 0 30 none
          sample_pin 4 [0, 0] 2).ret
        ≠ (extern_perform_verify World.initial crashed_reader 0 30 none
          sample_pin 4 [0, 0] 2).ret) := by
  decide

/-- C5, amended: every operation returns a negative error code, and the code is the
same whatever the cause: called in any two worlds on any two readers (say one whose
process is running and one whose process has terminated), an operation returns the
same code. -/
theorem error_code_is_negative_and_independent_of_cause (w w2 : World)
    (reader reader2 : ifd_reader_t)
    (name : String) (parity : Int) (speed : Nat) (slot : Int) (status : Int)
    (atr : List Byte) (atr_len : Nat) (timeout : Int) (message : Option String)
    (vtimeout : Nat) (prompt : Option String) (data : List Byte) (data_len : Nat)
    (resp : List Byte) (resp_len : Nat) (dad : Nat) (buffer : List Byte) (len : Nat)
    (rtimeout : Int) (protocol : Int) (sbuf : List Byte) (slen : Nat) (rbuf : List Byte)
    (rlen : Nat) (proto : Int) (addr : Nat) (events : Int) (statuses : List Int)
    (status_size : Nat) :
    ((extern_open w reader name).ret < 0 ∧
      (extern_open w reader name).ret
        = (extern_open w2 reader2 name).ret) ∧
    ((extern_close w reader).ret < 0 ∧
      (extern_close w reader).ret
        = (extern_close w2 reader2).ret) ∧
    ((extern_change_parity w reader parity).ret < 0 ∧
      (extern_change_parity w reader parity).ret
        = (extern_change_parity w2 reader2 parity).ret) ∧
    ((extern_change_speed w reader speed).ret < 0 ∧
      (extern_change_speed w reader speed).ret
        = (extern_change_speed w2 reader2 speed).ret) ∧
    ((extern_activate w reader).ret < 0 ∧
      (extern_activate w reader).ret
        = (extern_activate w2 reader2).ret) ∧
    ((extern_deactivate w reader).ret < 0 ∧
      (extern_deactivate w reader).ret
        = (extern_deactivate w2 reader2).ret) ∧
    ((extern_card_status w reader slot status).ret < 0 ∧
      (extern_card_status w reader slot status).ret
        = (extern_card_status w2 reader2 slot status).ret) ∧
    ((extern_card_reset w reader slot atr atr_len).ret < 0 ∧
      (extern_card_reset w reader slot atr atr_len).ret
        = (extern_card_reset w2 reader2 slot atr atr_len).ret) ∧
    ((extern_card_request w reader slot timeout message atr atr_len).ret < 0 ∧
      (extern_card_request w reader slot timeout message atr atr_len).ret
        = (extern_card_request w2 reader2 slot timeout message atr atr_len).ret) ∧
    ((extern_card_eject w reader slot timeout message).ret < 0 ∧
      (extern_card_eject w reader slot timeout message).ret
        = (extern_card_eject w2 reader2 slot timeout message).ret) ∧
    ((extern_output w reader message).ret < 0 ∧
      (extern_output w reader message).ret
        = (extern_output w2 reader2 message).ret) ∧
    ((extern_perform_verify w reader slot vtimeout prompt data data_len resp resp_len).ret < 0 ∧
      (extern_perform_verify w reader slot vtimeout prompt data data_len resp resp_len).ret
        = (extern_perform_verify w2 reader2 slot vtimeout prompt data data_len resp resp_len).ret) ∧
    ((extern_send w reader dad buffer len).ret < 0 ∧
      (extern_send w reader dad buffer len).ret
        = (extern_send w2 reader2 dad buffer len).ret) ∧
    ((extern_recv w reader dad buffer len rtimeout).ret < 0 ∧
      (extern_recv w reader dad buffer len rtimeout).ret
        = (extern_recv w2 reader2 dad buffer len rtimeout).ret) ∧
    ((extern_set_protocol w reader slot protocol).ret < 0 ∧
      (extern_set_protocol w reader slot protocol).ret
        = (extern_set_protocol w2 reader2 slot protocol).ret) ∧
    ((extern_transparent w reader slot sbuf slen rbuf rlen).ret < 0 ∧
      (extern_transparent w reader slot sbuf slen rbuf rlen).ret
        = (extern_transparent w2 reader2 slot sbuf slen rbuf rlen).ret) ∧
    ((extern_sync_read w reader slot proto addr rbuf rlen).ret < 0 ∧
      (extern_sync_read w reader slot proto addr rbuf rlen).ret
        = (extern_sync_read w2 reader2 slot proto addr rbuf rlen).ret) ∧
    ((extern_sync_write w reader slot proto addr sbuf slen).ret < 0 ∧
      (extern_sync_write w reader slot proto addr sbuf slen).ret
        = (extern_sync_write w2 reader2 slot proto addr sbuf slen).ret) ∧
    ((extern_escape w reader slot sbuf slen rbuf rlen).ret < 0 ∧
      (extern_escape w reader slot sbuf slen rbuf rlen).ret
        = (extern_escape w2 reader2 slot sbuf slen rbuf rlen).ret) ∧
    ((extern_before_command w reader).ret < 0 ∧
      (extern_before_command w reader).ret
        = (extern_before_command w2 reader2).ret) ∧
    ((extern_after_command w reader).ret < 0 ∧
      (extern_after_command w reader).ret
        = (extern_after_command w2 reader2).ret) ∧
    ((extern_get_eventfd w reader events).ret < 0 ∧
      (extern_get_eventfd w reader events).ret
        = (extern_get_eventfd w2 reader2 events).ret) ∧
    ((extern_event w reader statuses status_size).ret < 0 ∧
      (extern_event w reader statuses status_size).ret
        = (extern_event w2 reader2 statuses status_size).ret) ∧
    ((extern_error w reader).ret < 0 ∧
      (extern_error w reader).ret
        = (extern_error w2 reader2).ret) := by
  and_intros <;> first | rfl | exact (by decide : (-1 : Int) < 0)

/-- C6, refuted: `perform_verify` copies no status word into `resp`.  For a call
on a present card there are no two status bytes `sw1`, `sw2` that the first two
bytes of every response buffer of at least 2 bytes hold after the call. -/
theorem perform_verify_copies_no_status_word :
    ¬ ∃ sw1 sw2 : Byte, ∀ resp : List Byte, 2 ≤ resp.length →
      (extern_perform_verify World.initial running_reader 0 30 none
        sample_pin 4 resp resp.length).out.take 2 = [sw1, sw2] := by
  rintro ⟨sw1, sw2, h⟩
  have h0 := h [0, 0] (by decide)
  have h1 := h [1, 1] (by decide)
  simp only [extern_perform_verify, List.take, List.cons.injEq, and_true] at h0 h1
  have e0 : sw1 = 0 := h0.1.symm
  have e1 : sw1 = 1 := h1.1.symm
  rw [e0] at e1
  exact absurd e1 (by decide)

/-- C6, amended: for every call of `perform_verify` with a response buffer of at
least 2 bytes, the `resp` buffer is left as the caller passed it, and the return
value is a negative error code (it is -1) or exactly 2; it is never a non-negative
value other than 2. -/
theorem perform_verify_result (w : World) (reader : ifd_reader_t) (slot : Int)
    (vtimeout : Nat) (prompt : Option String) (data : List Byte) (data_len : Nat)
    (resp : List Byte) (resp_len : Nat) (hlen : 2 ≤ resp_len) :
    (extern_perform_verify w reader slot vtimeout prompt data data_len resp resp_len).out
      = resp ∧
    (extern_perform_verify w reader slot vtimeout prompt data data_len resp resp_len).ret
      = -1 ∧
    ((extern_perform_verify w reader slot vtimeout prompt data data_len resp resp_len).ret
        < 0 ∨
      (extern_perform_verify w reader slot vtimeout prompt data data_len resp resp_len).ret
        = 2) ∧
    ¬ (0 ≤ (extern_perform_verify w reader slot vtimeout prompt data data_len resp resp_len).ret ∧
      (extern_perform_verify w reader slot vtimeout prompt data data_len resp resp_len).ret
        ≠ 2) := by
  have _ := hlen
  exact ⟨rfl, rfl, Or.inl (by decide : (-1 : Int) < 0),
    fun h => absurd h.1 (by decide : ¬ (0 : Int) ≤ -1)⟩

/-- Witness of C6 (amended): a PIN verification with a 2-byte response buffer. -/
theorem perform_verify_result_witness :
    2 ≤ 2 ∧
    (extern_perform_verify World.initial running_reader 0 30 none
        sample_pin 4 [0xAA, 0xBB] 2).out
      = [0xAA, 0xBB] ∧
    (extern_perform_verify World.initial running_reader 0 30 none
        sample_pin 4 [0xAA, 0xBB] 2).ret
      = -1 ∧
    ((extern_perform_verify World.initial running_reader 0 30 none
        sample_pin 4 [0xAA, 0xBB] 2).ret
        < 0 ∨
      (extern_perform_verify World.initial running_reader 0 30 none
        sample_pin 4 [0xAA, 0xBB] 2).ret
        = 2) ∧
    ¬ (0 ≤ (extern_perform_verify World.initial running_reader 0 30 none
        sample_pin 4 [0xAA, 0xBB] 2).ret ∧
      (extern_perform_verify World.initial running_reader 0 30 none
        sample_pin 4 [0xAA, 0xBB] 2).ret
        ≠ 2) :=
  ⟨by decide,
    perform_verify_result World.initial running_reader 0 30 none
      sample_pin 4 [0xAA, 0xBB] 2 (by decide)⟩

/-- C8: the framing codec is a round trip.  For every valid frame `{length,
correlation_id, opcode, flags, payload}`, with `length` equal to the payload size
and not above the configured maximum, decoding the encoding of the frame gives the
frame back, with no byte left over; this holds for either byte order. -/
theorem decode_encode_roundtrip (o : ByteOrder) (max : Nat) (f : Frame)
    (hv : f.valid max) : decode o max (encode o f) = .Complete f [] := by
  have h := decode_encode_append o max f [] hv
  rwa [List.append_nil] at h

/-- Witness of C8: the round trip on the frame carrying the APDU `00 A4 04 00`. -/
theorem decode_encode_roundtrip_witness :
    sample_frame.valid 64 ∧
    decode .big 64 (encode .big sample_frame) = .Complete sample_frame [] :=
  ⟨by decide, decode_encode_roundtrip .big 64 sample_frame (by decide)⟩

/-- C9: every driver operation is a stub that returns unconditionally.  Each of the
24 operations of `ifd-extern.c` is a total function that returns -1 for all
arguments and all reader states; so two calls with different arguments, such as
`perform_verify` with different slots and PIN bytes, return the same result. -/
theorem every_operation_returns_minus_one (w : World) (reader : ifd_reader_t)
    (name : String) (parity : Int) (speed : Nat) (slot : Int) (status : Int)
    (atr : List Byte) (atr_len : Nat) (timeout : Int) (message : Option String)
    (vtimeout : Nat) (prompt : Option String) (data : List Byte) (data_len : Nat)
    (resp : List Byte) (resp_len : Nat) (dad : Nat) (buffer : List Byte) (len : Nat)
    (rtimeout : Int) (protocol : Int) (sbuf : List Byte) (slen : Nat) (rbuf : List Byte)
    (rlen : Nat) (proto : Int) (addr : Nat) (events : Int) (statuses : List Int)
    (status_size : Nat)
    (slot2 : Int) (data2 : List Byte) :
    (extern_open w reader name).ret = -1 ∧
    (extern_close w reader).ret = -1 ∧
    (extern_change_parity w reader parity).ret = -1 ∧
    (extern_change_speed w reader speed).ret = -1 ∧
    (extern_activate w reader).ret = -1 ∧
    (extern_deactivate w reader).ret = -1 ∧
    (extern_card_status w reader slot status).ret = -1 ∧
    (extern_card_reset w reader slot atr atr_len).ret = -1 ∧
    (extern_card_request w reader slot timeout message atr atr_len).ret = -1 ∧
    (extern_card_eject w reader slot timeout message).ret = -1 ∧
    (extern_output w reader message).ret = -1 ∧
    (extern_perform_verify w reader slot vtimeout prompt data data_len resp resp_len).ret = -1 ∧
    (extern_send w reader dad buffer len).ret = -1 ∧
    (extern_recv w reader dad buffer len rtimeout).ret = -1 ∧
    (extern_set_protocol w reader slot protocol).ret = -1 ∧
    (extern_transparent w reader slot sbuf slen rbuf rlen).ret = -1 ∧
    (extern_sync_read w reader slot proto addr rbuf rlen).ret = -1 ∧
    (extern_sync_write w reader slot proto addr sbuf slen).ret = -1 ∧
    (extern_escape w reader slot sbuf slen rbuf rlen).ret = -1 ∧
    (extern_before_command w reader).ret = -1 ∧
    (extern_after_command w reader).ret = -1 ∧
    (extern_get_eventfd w reader events).ret = -1 ∧
    (extern_event w reader statuses status_size).ret = -1 ∧
    (extern_error w reader).ret = -1 ∧
    (extern_perform_verify w reader slot vtimeout prompt data data_len resp resp_len).ret
      = (extern_perform_verify w reader slot2 vtimeout prompt data2 data_len resp
          resp_len).ret := by
  and_intros <;> rfl

/-- C10: after `ifd_extern_register`, the table registered under the driver name
`"extern"` is the static `ops`, and in it each of `open`, `close`, `change_parity`,
`change_speed`, `activate`, `deactivate`, `card_status`, `card_reset`, `card_request`,
`card_eject`, `output`, `perform_verify`, `send`, `recv`, `set_protocol`,
`transparent`, `sync_read`, `sync_write`, `escape`, `before_command`,
`after_command`, `event` and `error` (and `get_eventfd` as well) is set, not null, to
the function of the same name, and `default_protocol` is 0. -/
theorem register_fills_operation_table (w : World) :
    (ifd_extern_register w).driver_ops "extern" = some (ifd_extern_register w).ops ∧
    (ifd_extern_register w).ops.default_protocol = 0 ∧
    (ifd_extern_register w).ops.open_ = some DriverFn.extern_open ∧
    (ifd_extern_register w).ops.close = some DriverFn.extern_close ∧
    (ifd_extern_register w).ops.change_parity = some DriverFn.extern_change_parity ∧
    (ifd_extern_register w).ops.change_speed = some DriverFn.extern_change_speed ∧
    (ifd_extern_register w).ops.activate = some DriverFn.extern_activate ∧
    (ifd_extern_register w).ops.deactivate = some DriverFn.extern_deactivate ∧
    (ifd_extern_register w).ops.card_status = some DriverFn.extern_card_status ∧
    (ifd_extern_register w).ops.card_reset = some DriverFn.extern_card_reset ∧
    (ifd_extern_register w).ops.card_request = some DriverFn.extern_card_request ∧
    (ifd_extern_register w).ops.card_eject = some DriverFn.extern_card_eject ∧
    (ifd_extern_register w).ops.output = some DriverFn.extern_output ∧
    (ifd_extern_register w).ops.perform_verify = some DriverFn.extern_perform_verify ∧
    (ifd_extern_register w).ops.send = some DriverFn.extern_send ∧
    (ifd_extern_register w).ops.recv = some DriverFn.extern_recv ∧
    (ifd_extern_register w).ops.set_protocol = some DriverFn.extern_set_protocol ∧
    (ifd_extern_register w).ops.transparent = some DriverFn.extern_transparent ∧
    (ifd_extern_register w).ops.sync_read = some DriverFn.extern_sync_read ∧
    (ifd_extern_register w).ops.sync_write = some DriverFn.extern_sync_write ∧
    (ifd_extern_register w).ops.escape = some DriverFn.extern_escape ∧
    (ifd_extern_register w).ops.before_command = some DriverFn.extern_before_command ∧
    (ifd_extern_register w).ops.after_command = some DriverFn.extern_after_command ∧
    (ifd_extern_register w).ops.get_eventfd = some DriverFn.extern_get_eventfd ∧
    (ifd_extern_register w).ops.event = some DriverFn.extern_event ∧
    (ifd_extern_register w).ops.error = some DriverFn.extern_error := by
  refine ⟨?_, ?_⟩
  · simp [ifd_extern_register, ifd_driver_register, World.driver_ops, World.deref,
      List.lookup]
  · and_intros <;> rfl

/-! ## Properties of the device layer -/

/-- The world `ifd_open_extern` leaves is the world after its twelve assignments,
whether or not `ifd_device_new` answers a device. -/
theorem open_world_eq_assign_ops (fw : Device.Framework) (w : Device.DeviceWorld)
    (ident : String) : ( Device.ifd_open_extern fw w ident).world = Device.assign_ops w := by
  simp only [Device.ifd_open_extern]
  split <;> rfl

/-- C11: readers of this type coexist as far as the shared tables go.  For every two
identifiers, opening a second device with `ifd_open_extern` leaves the static
operation table of `extern.c` equal to what it was after the first open, so the
table behind the address a first device holds, hence the operations it dispatches
to, is not changed by the second open; and calling `ifd_extern_register` a second
time leaves the static table of `ifd-extern.c`, and the table found under the name
`"extern"`, equal to what they were after the first call. -/
theorem second_open_keeps_operation_table (fw : Device.Framework)
    (w : Device.DeviceWorld) (ident1 ident2 : String) (w0 : World) :
    ( Device.ifd_open_extern fw ( Device.ifd_open_extern fw w ident1).world ident2).world.ops
      = ( Device.ifd_open_extern fw w ident1).world.ops ∧
    (∀ ref : Device.DeviceOpsRef,
      ( Device.ifd_open_extern fw ( Device.ifd_open_extern fw w ident1).world
          ident2).world.deref ref
        = ( Device.ifd_open_extern fw w ident1).world.deref ref) ∧
    (ifd_extern_register (ifd_extern_register w0)).ops = (ifd_extern_register w0).ops ∧
    (ifd_extern_register (ifd_extern_register w0)).driver_ops "extern"
      = (ifd_extern_register w0).driver_ops "extern" := by
  have h : ( Device.ifd_open_extern fw ( Device.ifd_open_extern fw w ident1).world
      ident2).world.ops = ( Device.ifd_open_extern fw w ident1).world.ops := by
    rw [open_world_eq_assign_ops, open_world_eq_assign_ops]
    rfl
  refine ⟨h, ?_, rfl, ?_⟩
  · intro ref
    cases ref
    exact h
  · simp [ifd_extern_register, ifd_driver_register, World.driver_ops, World.deref,
      List.lookup]

/-- C12: for every identifier for which `ifd_device_new` returns a device,
`ifd_open_extern` returns that same device with `hotplug = 1`, `timeout = 2000`,
`type = IFD_DEVICE_TYPE_OTHER` and `user_data` null, its other fields being as
`ifd_device_new` left them; and `ifd_device_new` is called in a state in which all
twelve handlers of the operation table (`reset`, `set_params`, `get_params`,
`flush`, `send_break`, `transceive`, `send`, `recv`, `control`, `close`,
`get_eventfd`, `poll_presence`) are already set. -/
theorem open_returns_configured_device (fw : Device.Framework) (w : Device.DeviceWorld)
    (ident : String) (dev : Device.ifd_device_t)
    (hnew : fw.ifd_device_new (Device.assign_ops w) ident Device.DeviceOpsRef.extern_ops
      fw.sizeof_ifd_device_t = some dev) :
    ( Device.ifd_open_extern fw w ident).dev
      = some { dev with
          hotplug := 1
          timeout := 2000
          type := fw.IFD_DEVICE_TYPE_OTHER
          user_data := none } ∧
    ( Device.ifd_open_extern fw w ident).dev.map (fun d => d.hotplug) = some 1 ∧
    ( Device.ifd_open_extern fw w ident).dev.map (fun d => d.timeout) = some 2000 ∧
    ( Device.ifd_open_extern fw w ident).dev.map (fun d => d.type) = some fw.IFD_DEVICE_TYPE_OTHER ∧
    ( Device.ifd_open_extern fw w ident).dev.map (fun d => d.user_data) = some none ∧
    ( Device.ifd_open_extern fw w ident).dev.map (fun d => d.name) = some dev.name ∧
    ( Device.ifd_open_extern fw w ident).dev.map (fun d => d.ops) = some dev.ops ∧
    (Device.assign_ops w).ops.reset = some Device.DeviceFn.extern_reset ∧
    (Device.assign_ops w).ops.set_params = some Device.DeviceFn.extern_set_params ∧
    (Device.assign_ops w).ops.get_params = some Device.DeviceFn.extern_get_params ∧
    (Device.assign_ops w).ops.flush = some Device.DeviceFn.extern_flush ∧
    (Device.assign_ops w).ops.send_break = some Device.DeviceFn.extern_send_break ∧
    (Device.assign_ops w).ops.transceive = some Device.DeviceFn.extern_transceive ∧
    (Device.assign_ops w).ops.send = some Device.DeviceFn.extern_send ∧
    (Device.assign_ops w).ops.recv = some Device.DeviceFn.extern_recv ∧
    (Device.assign_ops w).ops.control = some Device.DeviceFn.extern_control ∧
    (Device.assign_ops w).ops.close = some Device.DeviceFn.extern_close ∧
    (Device.assign_ops w).ops.get_eventfd = some Device.DeviceFn.extern_get_eventfd ∧
    (Device.assign_ops w).ops.poll_presence = some Device.DeviceFn.extern_poll_presence := by
  have hdev : ( Device.ifd_open_extern fw w ident).dev
      = some { dev with
          hotplug := 1
          timeout := 2000
          type := fw.IFD_DEVICE_TYPE_OTHER
          user_data := none } := by
    simp only [Device.ifd_open_extern, hnew]
  refine ⟨hdev, ?_, ?_, ?_, ?_, ?_, ?_, ?_⟩
  any_goals (rw [hdev]; rfl)
  and_intros <;> rfl

/-- Witness of C12: opening `"sim0"` under a framework whose allocator succeeds. -/
theorem open_returns_configured_device_witness :
    Device.sample_framework.ifd_device_new (Device.assign_ops Device.DeviceWorld.initial)
      "sim0" Device.DeviceOpsRef.extern_ops Device.sample_framework.sizeof_ifd_device_t
      = some Device.fresh_device ∧
    ( Device.ifd_open_extern Device.sample_framework Device.DeviceWorld.initial "sim0").dev
      = some { Device.fresh_device with
          hotplug := 1
          timeout := 2000
          type := Device.sample_framework.IFD_DEVICE_TYPE_OTHER
          user_data := none } ∧
    ( Device.ifd_open_extern Device.sample_framework Device.DeviceWorld.initial "sim0").dev.map (fun d => d.hotplug) = some 1 ∧
    ( Device.ifd_open_extern Device.sample_framework Device.DeviceWorld.initial "sim0").dev.map (fun d => d.timeout) = some 2000 ∧
    ( Device.ifd_open_extern Device.sample_framework Device.DeviceWorld.initial "sim0").dev.map (fun d => d.type) = some Device.sample_framework.IFD_DEVICE_TYPE_OTHER ∧
    ( Device.ifd_open_extern Device.sample_framework Device.DeviceWorld.initial "sim0").dev.map (fun d => d.user_data) = some none ∧
    ( Device.ifd_open_extern Device.sample_framework Device.DeviceWorld.initial "sim0").dev.map (fun d => d.name) = some Device.fresh_device.name ∧
    ( Device.ifd_open_extern Device.sample_framework Device.DeviceWorld.initial "sim0").dev.map (fun d => d.ops) = some Device.fresh_device.ops ∧
    (Device.assign_ops Device.DeviceWorld.initial).ops.reset = some Device.DeviceFn.extern_reset ∧
    (Device.assign_ops Device.DeviceWorld.initial).ops.set_params = some Device.DeviceFn.extern_set_params ∧
    (Device.assign_ops Device.DeviceWorld.initial).ops.get_params = some Device.DeviceFn.extern_get_params ∧
    (Device.assign_ops Device.DeviceWorld.initial).ops.flush = some Device.DeviceFn.extern_flush ∧
    (Device.assign_ops Device.DeviceWorld.initial).ops.send_break = some Device.DeviceFn.extern_send_break ∧
    (Device.assign_ops Device.DeviceWorld.initial).ops.transceive = some Device.DeviceFn.extern_transceive ∧
    (Device.assign_ops Device.DeviceWorld.initial).ops.send = some Device.DeviceFn.extern_send ∧
    (Device.assign_ops Device.DeviceWorld.initial).ops.recv = some Device.DeviceFn.extern_recv ∧
    (Device.assign_ops Device.DeviceWorld.initial).ops.control = some Device.DeviceFn.extern_control ∧
    (Device.assign_ops Device.DeviceWorld.initial).ops.close = some Device.DeviceFn.extern_close ∧
    (Device.assign_ops Device.DeviceWorld.initial).ops.get_eventfd = some Device.DeviceFn.extern_get_eventfd ∧
    (Device.assign_ops Device.DeviceWorld.initial).ops.poll_presence = some Device.DeviceFn.extern_poll_presence :=
  ⟨rfl, open_returns_configured_device Device.sample_framework Device.DeviceWorld.initial
    "sim0" Device.fresh_device rfl⟩

/-- C13: on a device opened by `ifd_open_extern`, every device-level operation fails
without effect.  For all arguments `reset`, `set_params`, `get_params`,
`transceive`, `send`, `recv`, `control`, `get_eventfd` and `poll_presence` return
-1, and none of the twelve operations (these and `flush`, `send_break`, `close`)
changes the device, the receive buffer, the parameters, the events word or the
pollfd passed to it. -/
theorem device_operations_fail_without_effect (fw : Device.Framework)
    (w0 : Device.DeviceWorld) (ident : String) (device : Device.ifd_device_t)
    (hopen : ( Device.ifd_open_extern fw w0 ident).dev = some device)
    (w : Device.DeviceWorld) (parameters : Device.ifd_device_params_t) (flag : Nat)
    (send : List Byte) (send_size : Nat) (receive : List Byte) (receive_size : Nat)
    (flags : Int) (buffer : List Byte) (buffer_size : Nat) (events : Int)
    (polls : Device.pollfd) :
    let rst := Device.extern_reset w device
    let spa := Device.extern_set_params w device parameters
    let gpa := Device.extern_get_params w device parameters
    let flu := Device.extern_flush w device
    let brk := Device.extern_send_break w device flag
    let trx := Device.extern_transceive w device send send_size receive receive_size flags
    let snd := Device.extern_send w device send send_size
    let rcv := Device.extern_recv w device receive receive_size flags
    let ctl := Device.extern_control w device buffer buffer_size
    let cls := Device.extern_close w device
    let evt := Device.extern_get_eventfd w device events
    let pol := Device.extern_poll_presence w device polls
    (rst.ret = -1 ∧ rst.device = device) ∧
    (spa.ret = -1 ∧ spa.device = device) ∧
    (gpa.ret = -1 ∧ gpa.device = device ∧ gpa.out = parameters) ∧
    (flu.device = device) ∧
    (brk.device = device) ∧
    (trx.ret = -1 ∧ trx.device = device ∧ trx.out = receive) ∧
    (snd.ret = -1 ∧ snd.device = device) ∧
    (rcv.ret = -1 ∧ rcv.device = device ∧ rcv.out = receive) ∧
    (ctl.ret = -1 ∧ ctl.device = device ∧ ctl.out = buffer) ∧
    (cls.device = device) ∧
    (evt.ret = -1 ∧ evt.device = device ∧ evt.out = events) ∧
    (pol.ret = -1 ∧ pol.device = device ∧ pol.out = polls) := by
  have _ := hopen
  intro rst spa gpa flu brk trx snd rcv ctl cls evt pol
  and_intros <;> rfl

/-- Witness of C13: the twelve device operations on the device opened for `"sim0"`. -/
theorem device_operations_fail_without_effect_witness :
    ( Device.ifd_open_extern Device.sample_framework Device.DeviceWorld.initial "sim0").dev
      = some Device.sample_device ∧
    ((Device.extern_reset (Device.assign_ops Device.DeviceWorld.initial)
        Device.sample_device).ret = -1 ∧
      (Device.extern_reset (Device.assign_ops Device.DeviceWorld.initial)
        Device.sample_device).device
        = Device.sample_device) ∧
    ((Device.extern_set_params (Device.assign_ops Device.DeviceWorld.initial)
        Device.sample_device [0, 0, 0, 0]).ret = -1 ∧
      (Device.extern_set_params (Device.assign_ops Device.DeviceWorld.initial)
        Device.sample_device [0, 0, 0, 0]).device
        = Device.sample_device) ∧
    ((Device.extern_get_params (Device.assign_ops Device.DeviceWorld.initial)
        Device.sample_device [0, 0, 0, 0]).ret = -1 ∧
      (Device.extern_get_params (Device.assign_ops Device.DeviceWorld.initial)
        Device.sample_device [0, 0, 0, 0]).device
        = Device.sample_device ∧
      (Device.extern_get_params (Device.assign_ops Device.DeviceWorld.initial)
        Device.sample_device [0, 0, 0, 0]).out
        = [0, 0, 0, 0]) ∧
    ((Device.extern_flush (Device.assign_ops Device.DeviceWorld.initial)
        Device.sample_device).device
        = Device.sample_device) ∧
    ((Device.extern_send_break (Device.assign_ops Device.DeviceWorld.initial)
        Device.sample_device 100).device
        = Device.sample_device) ∧
    ((Device.extern_transceive (Device.assign_ops Device.DeviceWorld.initial)
        Device.sample_device select_apdu 4 [0, 0] 2 0).ret = -1 ∧
      (Device.extern_transceive (Device.assign_ops Device.DeviceWorld.initial)
        Device.sample_device select_apdu 4 [0, 0] 2 0).device
        = Device.sample_device ∧
      (Device.extern_transceive (Device.assign_ops Device.DeviceWorld.initial)
        Device.sample_device select_apdu 4 [0, 0] 2 0).out
        = [0, 0]) ∧
    ((Device.extern_send (Device.assign_ops Device.DeviceWorld.initial)
        Device.sample_device select_apdu 4).ret = -1 ∧
      (Device.extern_send (Device.assign_ops Device.DeviceWorld.initial)
        Device.sample_device select_apdu 4).device
        = Device.sample_device) ∧
    ((Device.extern_recv (Device.assign_ops Device.DeviceWorld.initial)
        Device.sample_device [0, 0] 2 0).ret = -1 ∧
      (Device.extern_recv (Device.assign_ops Device.DeviceWorld.initial)
        Device.sample_device [0, 0] 2 0).device
        = Device.sample_device ∧
      (Device.extern_recv (Device.assign_ops Device.DeviceWorld.initial)
        Device.sample_device [0, 0] 2 0).out
        = [0, 0]) ∧
    ((Device.extern_control (Device.assign_ops Device.DeviceWorld.initial)
        Device.sample_device [7, 7] 2).ret = -1 ∧
      (Device.extern_control (Device.assign_ops Device.DeviceWorld.initial)
        Device.sample_device [7, 7] 2).device
        = Device.sample_device ∧
      (Device.extern_control (Device.assign_ops Device.DeviceWorld.initial)
        Device.sample_device [7, 7] 2).out
        = [7, 7]) ∧
    ((Device.extern_close (Device.assign_ops Device.DeviceWorld.initial)
        Device.sample_device).device
        = Device.sample_device) ∧
    ((Device.extern_get_eventfd (Device.assign_ops Device.DeviceWorld.initial)
        Device.sample_device 1).ret = -1 ∧
      (Device.extern_get_eventfd (Device.assign_ops Device.DeviceWorld.initial)
        Device.sample_device 1).device
        = Device.sample_device ∧
      (Device.extern_get_eventfd (Device.assign_ops Device.DeviceWorld.initial)
        Device.sample_device 1).out
        = 1) ∧
    ((Device.extern_poll_presence (Device.assign_ops Device.DeviceWorld.initial)
        Device.sample_device Device.sample_pollfd).ret = -1 ∧
      (Device.extern_poll_presence (Device.assign_ops Device.DeviceWorld.initial)
        Device.sample_device Device.sample_pollfd).device
        = Device.sample_device ∧
      (Device.extern_poll_presence (Device.assign_ops Device.DeviceWorld.initial)
        Device.sample_device Device.sample_pollfd).out
        = Device.sample_pollfd) :=
  ⟨rfl, device_operations_fail_without_effect Device.sample_framework
    Device.DeviceWorld.initial "sim0" Device.sample_device rfl
    (Device.assign_ops Device.DeviceWorld.initial) [0, 0, 0, 0] 100 select_apdu 4 [0, 0] 2 0
    [7, 7] 2 1 Device.sample_pollfd⟩

end OpenCT
